import Mathlib

/-!
Shallow embedding of the kenpom-client prediction core.

Sources embedded here:
- `src/kenpom_client/matchup.py` — matchup feature extraction, home-court
  factor lookup, and the module-level HCA snapshot cache;
- `src/kenpom_client/hca_scraper.py` — the `HCASnapshot` value type and its
  `get_team_hca` fuzzy lookup (the scraping itself is out of scope);
- `src/kenpom_client/prediction.py` — baseline/enhanced margin model,
  additive variance model, score projections, win probabilities;
- `analyze_todays_games.py` — the team-lookup error branch of `analyze_game`.

Python floats are modelled as real numbers, `None`-able values as `Option`,
pandas `Series.get` access as `Option` fields read through `safe_get`
(the source's `_safe_get`).  The classification fields `pace_control` and
`style_clash` are the string values the source uses.  File-system access and
the module-level snapshot cache of `matchup.py` are modelled by explicit
state passing (`World`).
-/

/-- Default home court advantage in points (`prediction.py`,
`DEFAULT_HOME_COURT_ADVANTAGE`). -/
def DEFAULT_HOME_COURT_ADVANTAGE : ℝ := 3.5

/-- Default sigmoid scaling factor for win probability (`prediction.py`). -/
def DEFAULT_SIGMOID_K : ℝ := 11.0

/-- D1 average efficiency baseline (`prediction.py`). -/
def D1_AVERAGE_EFFICIENCY : ℝ := 100.0

/-- Luck regression coefficient (`prediction.py`). -/
def LUCK_REGRESSION_FACTOR : ℝ := 0.5

/-- Default HCA when no team-specific data is available (`matchup.py`,
`DEFAULT_HCA`). -/
def DEFAULT_HCA : ℝ := 3.5

/-- Team data row, the pandas `Series` rows of the enriched snapshot that
`predict_game`, `calculate_matchup_features` and `analyze_game` consume.
`adj_em` and `sigma` are read by direct indexing (`home["adj_em"]`) in
`predict_game`, so they are plain fields; the remaining statistics are read
through `_safe_get` with documented defaults, so they are `Option` fields. -/
structure TeamRow where
  team : Option String
  adj_em : ℝ
  sigma : ℝ
  adj_oe : Option ℝ
  adj_de : Option ℝ
  adj_tempo : Option ℝ
  efg_pct : Option ℝ
  defg_pct : Option ℝ
  to_pct : Option ℝ
  dto_pct : Option ℝ
  or_pct : Option ℝ
  dor_pct : Option ℝ
  off_fg3 : Option ℝ

/-- Embedding of `matchup._safe_get`: value from the series or the default
when the key is missing or the value is `None`/NaN. -/
def safe_get (value : Option ℝ) (default : ℝ) : ℝ :=
  value.getD default

/-- Embedding of Python `str.lower()` (per-character lowercase). -/
def str_lower (s : String) : String :=
  ⟨s.data.map Char.toLower⟩

/-- Embedding of Python's substring containment `needle in hay` on the
underlying character lists. -/
def containsSub (hay needle : List Char) : Bool :=
  match hay with
  | [] => needle.isEmpty
  | _ :: t => needle.isPrefixOf hay || containsSub t needle

/-- Python `needle in hay` for strings. -/
def pyIn (needle hay : String) : Bool :=
  containsSub hay.data needle.data

/-- Home Court Advantage data for a single team (`hca_scraper.TeamHCA`). -/
structure TeamHCA where
  team : String
  conference : String
  hca : ℝ
  hca_rank : ℤ
  home_em : Option ℝ
  away_em : Option ℝ
  home_record : Option String
  away_record : Option String

/-- Snapshot of all team HCA values (`hca_scraper.HCASnapshot`). -/
structure HCASnapshot where
  date : String
  season : ℤ
  national_avg_hca : ℝ
  teams : List TeamHCA

/-- Embedding of `HCASnapshot.get_team_hca`: first the case-insensitive exact
match loop over `self.teams`, then the bidirectional substring match loop,
else `None`. -/
def HCASnapshot.get_team_hca (snap : HCASnapshot) (team_name : String) : Option ℝ :=
  let team_lower := str_lower team_name
  match snap.teams.find? (fun t => str_lower t.team == team_lower) with
  | some t => some t.hca
  | none =>
    match snap.teams.find?
        (fun t => pyIn team_lower (str_lower t.team) || pyIn (str_lower t.team) team_lower) with
    | some t => some t.hca
    | none => none

/-- Embedding of `matchup.calculate_home_court_factor` after the snapshot
argument has been resolved: `hca_snapshot = none` stands for the source's
"no snapshot supplied and none loadable from disk" case.  Returns
`DEFAULT_HCA` when the home row has no team name or no snapshot is
available, the team-specific HCA when `get_team_hca` finds one, and the
snapshot's national average otherwise. -/
def calculate_home_court_factor (home : TeamRow) (hca_snapshot : Option HCASnapshot) : ℝ :=
  match home.team with
  | none => DEFAULT_HCA
  | some team_name =>
    match hca_snapshot with
    | none => DEFAULT_HCA
    | some snap =>
      match snap.get_team_hca team_name with
      | some team_hca => team_hca
      | none => snap.national_avg_hca

/-- Matchup-specific features derived from team comparisons
(`matchup.MatchupFeatures`).  All delta fields are away − home. -/
structure MatchupFeatures where
  delta_adj_em : ℝ
  delta_adj_oe : ℝ
  delta_adj_de : ℝ
  delta_tempo : ℝ
  shooting_advantage : ℝ
  shooting_defense_advantage : ℝ
  turnover_advantage : ℝ
  rebounding_advantage : ℝ
  tempo_mismatch : ℝ
  pace_control : String
  home_3pt_reliance : ℝ
  away_3pt_reliance : ℝ
  style_clash : String
  home_court_factor : ℝ
  rest_advantage : Option ℤ
  travel_distance : Option ℝ
  feature_version : String

/-- Embedding of `matchup.calculate_matchup_features` with no `game_context`
(the default at every call site the claims touch), parametrised by the
resolved HCA snapshot.  `adj_em` is read through `_safe_get(_, "adj_em", 0.0)`
in the source; the field is always present on the rows `predict_game`
accepts, so it is the plain field here. -/
noncomputable def calculate_matchup_features (away home : TeamRow)
    (hca_snapshot : Option HCASnapshot) : MatchupFeatures :=
  let delta_adj_em := away.adj_em - home.adj_em
  let delta_adj_oe := safe_get away.adj_oe 105.0 - safe_get home.adj_oe 105.0
  let delta_adj_de := safe_get away.adj_de 100.0 - safe_get home.adj_de 100.0
  let delta_tempo := safe_get away.adj_tempo 68.0 - safe_get home.adj_tempo 68.0
  let away_efg := safe_get away.efg_pct 50.0
  let home_defg := safe_get home.defg_pct 50.0
  let shooting_advantage := away_efg - home_defg
  let home_efg := safe_get home.efg_pct 50.0
  let away_defg := safe_get away.defg_pct 50.0
  let shooting_defense_advantage := home_efg - away_defg
  let home_dto := safe_get home.dto_pct 20.0
  let away_to := safe_get away.to_pct 20.0
  let turnover_advantage := home_dto - away_to
  let away_or := safe_get away.or_pct 30.0
  let home_dor := safe_get home.dor_pct 30.0
  let rebounding_advantage := away_or - home_dor
  let tempo_mismatch := |delta_tempo|
  let pace_control :=
    if tempo_mismatch > 5.0 then
      if delta_tempo > 0 then "away_controls" else "home_controls"
    else "neutral"
  let home_3pt_reliance := safe_get home.off_fg3 30.0
  let away_3pt_reliance := safe_get away.off_fg3 30.0
  let three_pt_diff := |home_3pt_reliance - away_3pt_reliance|
  let style_clash := if three_pt_diff > 10.0 then "3pt_vs_interior" else "similar"
  let home_court_factor := calculate_home_court_factor home hca_snapshot
  { delta_adj_em := delta_adj_em
    delta_adj_oe := delta_adj_oe
    delta_adj_de := delta_adj_de
    delta_tempo := delta_tempo
    shooting_advantage := shooting_advantage
    shooting_defense_advantage := shooting_defense_advantage
    turnover_advantage := turnover_advantage
    rebounding_advantage := rebounding_advantage
    tempo_mismatch := tempo_mismatch
    pace_control := pace_control
    home_3pt_reliance := home_3pt_reliance
    away_3pt_reliance := away_3pt_reliance
    style_clash := style_clash
    home_court_factor := home_court_factor
    rest_advantage := none
    travel_distance := none
    feature_version := "1.0" }

/-- Outcome of one disk read attempt of `matchup.load_hca_snapshot`:
- `noFile`: no `data` directory, or no `kenpom_hca_*.json` file (the two early
  returns before the `try` block — nothing is cached);
- `parseFailure`: `read_text`/`HCASnapshot.from_json` raises, so the `except`
  path runs before `_hca_snapshot_cache` is assigned — nothing is cached;
- `freshnessFailure s`: `from_json` yields `s` and `_hca_snapshot_cache` is
  assigned, but the later freshness check raises (e.g. the filename date
  `2025-13-01` matches the regex yet `strptime` rejects it), so the `except`
  path returns `None` with the cache already set to `s`;
- `ok s`: the whole `try` block succeeds and returns the cached `s`. -/
inductive DiskState where
  | noFile : DiskState
  | parseFailure : DiskState
  | freshnessFailure (s : HCASnapshot) : DiskState
  | ok (s : HCASnapshot) : DiskState

/-- State for the module-level HCA snapshot machinery of `matchup.py`:
`cache` is the `_hca_snapshot_cache` global, `disk` what one read attempt on
the newest `data/kenpom_hca_*.json` file would produce. -/
structure World where
  cache : Option HCASnapshot
  disk : DiskState

/-- Embedding of `matchup.load_hca_snapshot`: return the cached snapshot when
set; otherwise attempt the disk read.  The source assigns
`_hca_snapshot_cache` as soon as `from_json` succeeds and only then runs the
fallible freshness check, so the `freshnessFailure` outcome returns `None`
with the cache nevertheless set — the error path the blanket
`except Exception` creates. -/
def load_hca_snapshot (w : World) : Option HCASnapshot × World :=
  match w.cache with
  | some s => (some s, w)
  | none =>
    match w.disk with
    | DiskState.noFile => (none, w)
    | DiskState.parseFailure => (none, w)
    | DiskState.freshnessFailure s => (none, { w with cache := some s })
    | DiskState.ok s => (some s, { w with cache := some s })

/-- Stateful `calculate_matchup_features` as called with no snapshot in hand:
`calculate_home_court_factor` loads the snapshot via `load_hca_snapshot`
(the one effectful step of feature computation). -/
noncomputable def calculate_matchup_featuresW (away home : TeamRow) (w : World) :
    MatchupFeatures × World :=
  let r := load_hca_snapshot w
  (calculate_matchup_features away home r.1, r.2)

/-- Approximation-free embedding of `math.erf`, the Gauss error function that
`prediction.normal_cdf` relies on. -/
noncomputable def erf (x : ℝ) : ℝ :=
  (2 / Real.sqrt Real.pi) * ∫ t in (0:ℝ)..x, Real.exp (-(t ^ 2))

/-- Embedding of `prediction.normal_cdf`: standard normal CDF through the
error function identity. -/
noncomputable def normal_cdf (x : ℝ) : ℝ :=
  (1.0 + erf (x / Real.sqrt 2.0)) / 2.0

/-- Embedding of `prediction.sigmoid_winprob`. -/
noncomputable def sigmoid_winprob (margin : ℝ) (k : ℝ) : ℝ :=
  1.0 / (1.0 + Real.exp (-margin / k))

/-- Unified view of the `Rating` and `ArchiveRating` inputs of the score
projections: the fields the projections read, plus `isArchiveRating`
standing for the `isinstance(home, ArchiveRating)` test and `sourceDate`
for the `ArchiveDate`/`DataThrough` string the feature source is built
from.  `Luck` is `Option` because `getattr(_, "Luck", None)` yields `None`
on `ArchiveRating`. -/
structure RatingLike where
  TeamName : String
  AdjOE : ℝ
  AdjDE : ℝ
  AdjTempo : ℝ
  Luck : Option ℝ
  isArchiveRating : Bool
  sourceDate : String

/-- Projected scores for a game using the OE/DE crossover method
(`prediction.ScoreProjection`). -/
structure ScoreProjection where
  proj_home : ℝ
  proj_visitor : ℝ
  proj_total : ℝ
  proj_margin : ℝ
  possessions : ℝ
  win_prob_home : ℝ
  win_prob_visitor : ℝ
  home_adv : ℝ
  k : ℝ
  method : String
  feature_source : String

/-- Embedding of `prediction.project_scores`. -/
noncomputable def project_scores (home visitor : RatingLike) (home_adv k : ℝ)
    (feature_source : Option String) : ScoreProjection :=
  let poss := (home.AdjTempo + visitor.AdjTempo) / 2.0
  let e_home := (home.AdjOE + visitor.AdjDE) / 2.0
  let e_visitor := (visitor.AdjOE + home.AdjDE) / 2.0
  let raw_home := poss * e_home / 100.0
  let raw_visitor := poss * e_visitor / 100.0
  let proj_home := raw_home + home_adv / 2.0
  let proj_visitor := raw_visitor - home_adv / 2.0
  let proj_total := proj_home + proj_visitor
  let proj_margin := proj_home - proj_visitor
  let win_prob_home := sigmoid_winprob proj_margin k
  let win_prob_visitor := 1.0 - win_prob_home
  let method := if home.isArchiveRating then "archive" else "ratings"
  let fs :=
    match feature_source with
    | some s => s
    | none =>
      if home.isArchiveRating then "archive:" ++ home.sourceDate
      else "ratings:" ++ home.sourceDate
  { proj_home := proj_home
    proj_visitor := proj_visitor
    proj_total := proj_total
    proj_margin := proj_margin
    possessions := poss
    win_prob_home := win_prob_home
    win_prob_visitor := win_prob_visitor
    home_adv := home_adv
    k := k
    method := method
    feature_source := fs }

/-- Projected scores using the log-linear efficiency formula
(`prediction.EnhancedScoreProjection`). -/
structure EnhancedScoreProjection where
  proj_home : ℝ
  proj_visitor : ℝ
  proj_total : ℝ
  proj_margin : ℝ
  possessions : ℝ
  win_prob_home : ℝ
  win_prob_visitor : ℝ
  home_adv : ℝ
  hca_efficiency : ℝ
  k : ℝ
  method : String
  feature_source : String
  luck_adjustment_home : ℝ
  luck_adjustment_visitor : ℝ
  eff_home_raw : ℝ
  eff_visitor_raw : ℝ

/-- Embedding of `prediction.calculate_luck_adjustment`. -/
noncomputable def calculate_luck_adjustment (luck : Option ℝ) : ℝ :=
  match luck with
  | none => 0.0
  | some l => -l * LUCK_REGRESSION_FACTOR * 10.0

/-- Embedding of `prediction.project_scores_loglinear`. -/
noncomputable def project_scores_loglinear (home visitor : RatingLike)
    (home_adv k : ℝ) (feature_source : Option String) (pred_tempo : Option ℝ)
    (apply_luck_regression : Bool) : EnhancedScoreProjection :=
  let poss :=
    match pred_tempo with
    | some p => p
    | none => (home.AdjTempo + visitor.AdjTempo) / 2.0
  let eff_home_raw := home.AdjOE + visitor.AdjDE - D1_AVERAGE_EFFICIENCY
  let eff_visitor_raw := visitor.AdjOE + home.AdjDE - D1_AVERAGE_EFFICIENCY
  let luck_adj_home :=
    if apply_luck_regression then calculate_luck_adjustment home.Luck else 0.0
  let luck_adj_visitor :=
    if apply_luck_regression then calculate_luck_adjustment visitor.Luck else 0.0
  let hca_efficiency := home_adv * 100.0 / poss
  let eff_home := eff_home_raw + hca_efficiency + luck_adj_home
  let eff_visitor := eff_visitor_raw + luck_adj_visitor
  let proj_home := poss * eff_home / 100.0
  let proj_visitor := poss * eff_visitor / 100.0
  let proj_total := proj_home + proj_visitor
  let proj_margin := proj_home - proj_visitor
  let win_prob_home := normal_cdf (proj_margin / k)
  let win_prob_visitor := 1.0 - win_prob_home
  let method := if home.isArchiveRating then "loglinear_archive" else "loglinear"
  let fs :=
    match feature_source with
    | some s => s
    | none =>
      if home.isArchiveRating then "archive:" ++ home.sourceDate
      else "ratings:" ++ home.sourceDate
  { proj_home := proj_home
    proj_visitor := proj_visitor
    proj_total := proj_total
    proj_margin := proj_margin
    possessions := poss
    win_prob_home := win_prob_home
    win_prob_visitor := win_prob_visitor
    home_adv := home_adv
    hca_efficiency := hca_efficiency
    k := k
    method := method
    feature_source := fs
    luck_adjustment_home := luck_adj_home
    luck_adjustment_visitor := luck_adj_visitor
    eff_home_raw := eff_home_raw
    eff_visitor_raw := eff_visitor_raw }

/-- Heuristic coefficients for the enhanced margin model
(`prediction.HEURISTIC_COEFFICIENTS`).  The four component coefficients are
read by direct indexing; `max_total_adjustment` is read through
`coef.get("max_total_adjustment", 2.0)`, hence `Option`. -/
structure HeuristicCoefficients where
  pace_control_per_5_tempo : ℝ
  shooting_matchup_per_5_efg : ℝ
  turnover_battle_per_2_to : ℝ
  rebounding_edge_per_3_or : ℝ
  max_total_adjustment : Option ℝ

/-- Default heuristic coefficient map of `prediction.py`. -/
def HEURISTIC_COEFFICIENTS : HeuristicCoefficients :=
  { pace_control_per_5_tempo := 0.10
    shooting_matchup_per_5_efg := 0.06
    turnover_battle_per_2_to := 0.10
    rebounding_edge_per_3_or := 0.033
    max_total_adjustment := some 2.0 }

/-- Variance interaction coefficients (`prediction.VARIANCE_COEFFICIENTS`). -/
structure VarianceCoefficients where
  tempo_mismatch_factor : ℝ
  style_clash_3pt_vs_interior_boost : ℝ
  style_clash_similar_boost : ℝ

/-- Values of `prediction.VARIANCE_COEFFICIENTS`. -/
def VARIANCE_COEFFICIENTS : VarianceCoefficients :=
  { tempo_mismatch_factor := 0.015
    style_clash_3pt_vs_interior_boost := 1.10
    style_clash_similar_boost := 1.0 }

/-- Embedding of `math.copysign x y`: the magnitude of `x` with the sign of
`y` (reals carry no signed zero, so `y = 0` counts as positive, as the
`+0.0` float does). -/
noncomputable def copysign (x y : ℝ) : ℝ :=
  if y < 0 then -|x| else |x|

/-- Embedding of `prediction.calculate_margin_baseline`. -/
noncomputable def calculate_margin_baseline (home_adj_em away_adj_em home_court_advantage : ℝ) : ℝ :=
  home_adj_em - away_adj_em + home_court_advantage

/-- Embedding of `prediction.calculate_sigma_baseline`. -/
noncomputable def calculate_sigma_baseline (away_sigma home_sigma : ℝ) : ℝ :=
  (away_sigma + home_sigma) / 2.0

/-- Embedding of `prediction._adjust_for_pace`. -/
noncomputable def adjust_for_pace (matchup_features : MatchupFeatures)
    (coefficients : HeuristicCoefficients) : ℝ :=
  if matchup_features.pace_control == "home_controls" then
    (|matchup_features.delta_tempo| / 5.0) * coefficients.pace_control_per_5_tempo
  else if matchup_features.pace_control == "away_controls" then
    -((|matchup_features.delta_tempo| / 5.0) * coefficients.pace_control_per_5_tempo)
  else
    0.0

/-- Embedding of `prediction._adjust_for_shooting`. -/
noncomputable def adjust_for_shooting (matchup_features : MatchupFeatures)
    (coefficients : HeuristicCoefficients) : ℝ :=
  let net_shooting :=
    matchup_features.shooting_defense_advantage - matchup_features.shooting_advantage
  (net_shooting / 5.0) * coefficients.shooting_matchup_per_5_efg

/-- Embedding of `prediction._adjust_for_turnovers`. -/
noncomputable def adjust_for_turnovers (matchup_features : MatchupFeatures)
    (coefficients : HeuristicCoefficients) : ℝ :=
  (matchup_features.turnover_advantage / 2.0) * coefficients.turnover_battle_per_2_to

/-- Embedding of `prediction._adjust_for_rebounding`. -/
noncomputable def adjust_for_rebounding (matchup_features : MatchupFeatures)
    (coefficients : HeuristicCoefficients) : ℝ :=
  -((matchup_features.rebounding_advantage / 3.0) * coefficients.rebounding_edge_per_3_or)

/-- The `adjustments` dict built inside `calculate_margin_enhanced`, with its
four fixed keys. -/
structure AdjustmentBreakdown where
  pace_control : ℝ
  shooting_matchup : ℝ
  turnover_battle : ℝ
  rebounding_edge : ℝ

/-- Sum of the component adjustments (`sum(adjustments.values())`). -/
noncomputable def AdjustmentBreakdown.total (a : AdjustmentBreakdown) : ℝ :=
  a.pace_control + a.shooting_matchup + a.turnover_battle + a.rebounding_edge

/-- Embedding of `prediction.calculate_margin_enhanced`: baseline margin from
the matchup features' home-court factor, the four component adjustments,
their sum hard-capped at the configured maximum preserving sign, and the
uncapped breakdown returned alongside the enhanced margin. -/
noncomputable def calculate_margin_enhanced (home_adj_em away_adj_em : ℝ)
    (matchup_features : MatchupFeatures)
    (coefficients : Option HeuristicCoefficients) : ℝ × AdjustmentBreakdown :=
  let coef := coefficients.getD HEURISTIC_COEFFICIENTS
  let margin_baseline :=
    calculate_margin_baseline home_adj_em away_adj_em matchup_features.home_court_factor
  let adjustments : AdjustmentBreakdown :=
    { pace_control := adjust_for_pace matchup_features coef
      shooting_matchup := adjust_for_shooting matchup_features coef
      turnover_battle := adjust_for_turnovers matchup_features coef
      rebounding_edge := adjust_for_rebounding matchup_features coef }
  let total_adjustment := adjustments.total
  let max_adjustment := coef.max_total_adjustment.getD 2.0
  let total_adjustment :=
    if |total_adjustment| > max_adjustment then copysign max_adjustment total_adjustment
    else total_adjustment
  let margin_enhanced := margin_baseline + total_adjustment
  (margin_enhanced, adjustments)

/-- The `components` dict of `calculate_sigma_game`. -/
structure SigmaComponents where
  var_away : ℝ
  var_home : ℝ
  var_interaction : ℝ
  var_total : ℝ

/-- Embedding of `prediction.calculate_sigma_game`: additive variance model,
tempo-mismatch interaction scaled by the style-clash multiplier, square
root, then the floor at both team sigmas. -/
noncomputable def calculate_sigma_game (away_sigma home_sigma : ℝ)
    (matchup_features : MatchupFeatures) : ℝ × SigmaComponents :=
  let coef := VARIANCE_COEFFICIENTS
  let var_away := away_sigma ^ 2
  let var_home := home_sigma ^ 2
  let tempo_var := coef.tempo_mismatch_factor * matchup_features.tempo_mismatch ^ 2
  let style_multiplier :=
    if matchup_features.style_clash == "3pt_vs_interior" then
      coef.style_clash_3pt_vs_interior_boost
    else
      coef.style_clash_similar_boost
  let var_interaction := tempo_var * style_multiplier
  let total_variance := var_away + var_home + var_interaction
  let sigma_game := Real.sqrt total_variance
  let sigma_game := max sigma_game (max away_sigma home_sigma)
  (sigma_game,
    { var_away := var_away
      var_home := var_home
      var_interaction := var_interaction
      var_total := total_variance })

/-- Complete prediction output (`prediction.MarginPrediction`). -/
structure MarginPrediction where
  margin_baseline : ℝ
  sigma_baseline : ℝ
  win_prob_baseline : ℝ
  margin_enhanced : ℝ
  margin_adjustment : ℝ
  adjustment_breakdown : AdjustmentBreakdown
  sigma_game : ℝ
  sigma_components : SigmaComponents
  win_prob_enhanced : ℝ
  prediction_version : String

/-- Embedding of `prediction.predict_game` once the matchup features are in
hand (the body after the `matchup_features is None` branch). -/
noncomputable def predict_game (away home : TeamRow)
    (matchup_features : MatchupFeatures)
    (coefficients : Option HeuristicCoefficients) : MarginPrediction :=
  let margin_baseline :=
    calculate_margin_baseline home.adj_em away.adj_em matchup_features.home_court_factor
  let sigma_baseline := calculate_sigma_baseline away.sigma home.sigma
  let win_prob_baseline := normal_cdf (margin_baseline / sigma_baseline)
  let enhanced := calculate_margin_enhanced home.adj_em away.adj_em matchup_features coefficients
  let game := calculate_sigma_game away.sigma home.sigma matchup_features
  let win_prob_enhanced := normal_cdf (enhanced.1 / game.1)
  { margin_baseline := margin_baseline
    sigma_baseline := sigma_baseline
    win_prob_baseline := win_prob_baseline
    margin_enhanced := enhanced.1
    margin_adjustment := enhanced.1 - margin_baseline
    adjustment_breakdown := enhanced.2
    sigma_game := game.1
    sigma_components := game.2
    win_prob_enhanced := win_prob_enhanced
    prediction_version := "1.0" }

/-- Embedding of `prediction.predict_game` with its `Optional`
`matchup_features` argument: when omitted, the features are computed through
the stateful `calculate_matchup_features` (HCA snapshot cache). -/
noncomputable def predict_gameW (away home : TeamRow)
    (matchup_features : Option MatchupFeatures)
    (coefficients : Option HeuristicCoefficients) (w : World) :
    MarginPrediction × World :=
  match matchup_features with
  | some mf => (predict_game away home mf coefficients, w)
  | none =>
    let r := calculate_matchup_featuresW away home w
    (predict_game away home r.1 coefficients, r.2)

/-- The team-lookup failure branch of `analyze_todays_games.analyze_game`:
given the two `find_team` results, the error record it returns, `none` when
both teams resolved.  Mirrors the source's
`"Team not found: " + (away_team if away is None else home_team)`. -/
def analyze_game_error (away_team home_team : String)
    (away home : Option TeamRow) : Option String :=
  if away.isNone || home.isNone then
    some ("Team not found: " ++ (if away.isNone then away_team else home_team))
  else
    none

/-- The cap `coef.get("max_total_adjustment", 2.0)` that
`calculate_margin_enhanced` applies for a given optional coefficient map. -/
def max_adjustment_of (coefficients : Option HeuristicCoefficients) : ℝ :=
  ((coefficients.getD HEURISTIC_COEFFICIENTS).max_total_adjustment).getD 2.0

/-- A concrete matchup-feature value whose turnover component alone sums to
5 points, so the ±2 cap of `calculate_margin_enhanced` triggers. -/
def clampedMatchup : MatchupFeatures :=
  { delta_adj_em := 0
    delta_adj_oe := 0
    delta_adj_de := 0
    delta_tempo := 0
    shooting_advantage := 0
    shooting_defense_advantage := 0
    turnover_advantage := 100.0
    rebounding_advantage := 0
    tempo_mismatch := 0
    pace_control := "neutral"
    home_3pt_reliance := 30.0
    away_3pt_reliance := 30.0
    style_clash := "similar"
    home_court_factor := 3.5
    rest_advantage := none
    travel_distance := none
    feature_version := "1.0" }

/-- A concrete matchup-feature value matching the spec's variance scenario:
tempo mismatch 10.0 and a 3PT-versus-interior style clash. -/
def styleClashMatchup : MatchupFeatures :=
  { delta_adj_em := 0
    delta_adj_oe := 0
    delta_adj_de := 0
    delta_tempo := -10.0
    shooting_advantage := 0
    shooting_defense_advantage := 0
    turnover_advantage := 0
    rebounding_advantage := 0
    tempo_mismatch := 10.0
    pace_control := "home_controls"
    home_3pt_reliance := 40.0
    away_3pt_reliance := 25.0
    style_clash := "3pt_vs_interior"
    home_court_factor := 3.5
    rest_advantage := none
    travel_distance := none
    feature_version := "1.0" }

/-- A valid snapshot carried by a badly named file: the contents parse, the
filename date does not.  The home team's table HCA (4.5) differs from the
3.5 default. -/
def poisonSnapshot : HCASnapshot :=
  { date := "2025-13-01"
    season := 2025
    national_avg_hca := 3.2
    teams := [{ team := "Kansas"
                conference := "B12"
                hca := 4.5
                hca_rank := 1
                home_em := none
                away_em := none
                home_record := none
                away_record := none }] }

/-- A concrete away row for the cache-poisoning run. -/
def exampleAwayRow : TeamRow :=
  { team := some "Oregon"
    adj_em := 0
    sigma := 10
    adj_oe := none
    adj_de := none
    adj_tempo := none
    efg_pct := none
    defg_pct := none
    to_pct := none
    dto_pct := none
    or_pct := none
    dor_pct := none
    off_fg3 := none }

/-- A concrete home row whose name matches the snapshot's table entry. -/
def exampleHomeRow : TeamRow :=
  { team := some "Kansas"
    adj_em := 0
    sigma := 10
    adj_oe := none
    adj_de := none
    adj_tempo := none
    efg_pct := none
    defg_pct := none
    to_pct := none
    dto_pct := none
    or_pct := none
    dor_pct := none
    off_fg3 := none }

/-- First projection of `calculate_sigma_game`: the square root of the total
variance, floored at both team sigmas. -/
theorem calculate_sigma_game_fst (a h : ℝ) (mf : MatchupFeatures) :
    (calculate_sigma_game a h mf).1 =
      max (Real.sqrt ((calculate_sigma_game a h mf).2.var_total)) (max a h) := rfl

/-- Variance components of `calculate_sigma_game`, unfolded. -/
theorem calculate_sigma_game_snd (a h : ℝ) (mf : MatchupFeatures) :
    (calculate_sigma_game a h mf).2 =
      { var_away := a ^ 2
        var_home := h ^ 2
        var_interaction :=
          VARIANCE_COEFFICIENTS.tempo_mismatch_factor * mf.tempo_mismatch ^ 2 *
            (if mf.style_clash == "3pt_vs_interior" then
              VARIANCE_COEFFICIENTS.style_clash_3pt_vs_interior_boost
            else VARIANCE_COEFFICIENTS.style_clash_similar_boost)
        var_total := a ^ 2 + h ^ 2 +
          VARIANCE_COEFFICIENTS.tempo_mismatch_factor * mf.tempo_mismatch ^ 2 *
            (if mf.style_clash == "3pt_vs_interior" then
              VARIANCE_COEFFICIENTS.style_clash_3pt_vs_interior_boost
            else VARIANCE_COEFFICIENTS.style_clash_similar_boost) } := rfl

/-- Enhanced margin of `calculate_margin_enhanced`, unfolded to the baseline
plus the capped total adjustment. -/
theorem calculate_margin_enhanced_fst (h a : ℝ) (mf : MatchupFeatures)
    (c : Option HeuristicCoefficients) :
    (calculate_margin_enhanced h a mf c).1 =
      calculate_margin_baseline h a mf.home_court_factor +
        (if |(calculate_margin_enhanced h a mf c).2.total| > max_adjustment_of c then
          copysign (max_adjustment_of c) ((calculate_margin_enhanced h a mf c).2.total)
        else
          (calculate_margin_enhanced h a mf c).2.total) := rfl

/-- Margin fields of `predict_game`, unfolded. -/
theorem predict_game_margins (away home : TeamRow) (mf : MatchupFeatures)
    (c : Option HeuristicCoefficients) :
    (predict_game away home mf c).margin_baseline =
        calculate_margin_baseline home.adj_em away.adj_em mf.home_court_factor ∧
      (predict_game away home mf c).margin_enhanced =
        (calculate_margin_enhanced home.adj_em away.adj_em mf c).1 ∧
      (predict_game away home mf c).adjustment_breakdown =
        (calculate_margin_enhanced home.adj_em away.adj_em mf c).2 ∧
      (predict_game away home mf c).sigma_game =
        (calculate_sigma_game away.sigma home.sigma mf).1 := ⟨rfl, rfl, rfl, rfl⟩

/-- Magnitude bound of the hard cap applied in `calculate_margin_enhanced`. -/
theorem abs_capped_le (t cap : ℝ) (hcap : 0 ≤ cap) :
    |if |t| > cap then copysign cap t else t| ≤ cap := by
  by_cases h : |t| > cap
  · simp only [h, if_pos, copysign]
    by_cases ht : t < 0
    · simp [ht, abs_of_nonneg hcap]
    · simp [ht, abs_of_nonneg hcap]
  · simpa [h] using le_of_not_lt h

/-- C6: calculate_margin_baseline returns home_adj_em − away_adj_em + the
home-court factor, calculate_sigma_baseline returns the arithmetic mean of
the two sigmas; with home adj_em 22.0, away adj_em 12.3 and home court 3.5
the baseline margin is 13.2, and sigmas 10.5/11.2 average to 10.85. -/
theorem C6_baseline_margin_and_sigma :
    (∀ h a c : ℝ, calculate_margin_baseline h a c = h - a + c) ∧
    (∀ a h : ℝ, calculate_sigma_baseline a h = (a + h) / 2) ∧
    calculate_margin_baseline 22.0 12.3 3.5 = 13.2 ∧
    calculate_sigma_baseline 10.5 11.2 = 10.85 := by
  refine ⟨fun _ _ _ => rfl, fun _ _ => by norm_num [calculate_sigma_baseline], ?_, ?_⟩
  · norm_num [calculate_margin_baseline]
  · norm_num [calculate_sigma_baseline]

/-- C2: calculate_sigma_game never returns less than either team sigma, and
likewise for the sigma_game field of predict_game. -/
theorem C2_sigma_game_ge_team_sigmas :
    (∀ (away_sigma home_sigma : ℝ) (mf : MatchupFeatures),
      max away_sigma home_sigma ≤ (calculate_sigma_game away_sigma home_sigma mf).1) ∧
    (∀ (away home : TeamRow) (mf : MatchupFeatures) (c : Option HeuristicCoefficients),
      max away.sigma home.sigma ≤ (predict_game away home mf c).sigma_game) := by
  have key : ∀ (a h : ℝ) (mf : MatchupFeatures),
      max a h ≤ (calculate_sigma_game a h mf).1 := by
    intro a h mf
    rw [calculate_sigma_game_fst]
    exact le_max_right _ _
  refine ⟨key, fun away home mf c => ?_⟩
  rw [(predict_game_margins away home mf c).2.2.2]
  exact key away.sigma home.sigma mf

/-- C7: the adjustment breakdown returned by calculate_margin_enhanced (and
carried into predict_game) always holds the four unclamped per-component
adjustments, and on an input where the cap triggers the breakdown sum
differs from margin_enhanced − margin_baseline. -/
theorem C7_breakdown_reports_unclamped_components :
    (∀ (h a : ℝ) (mf : MatchupFeatures) (c : Option HeuristicCoefficients),
      (calculate_margin_enhanced h a mf c).2 =
        { pace_control := adjust_for_pace mf (c.getD HEURISTIC_COEFFICIENTS)
          shooting_matchup := adjust_for_shooting mf (c.getD HEURISTIC_COEFFICIENTS)
          turnover_battle := adjust_for_turnovers mf (c.getD HEURISTIC_COEFFICIENTS)
          rebounding_edge := adjust_for_rebounding mf (c.getD HEURISTIC_COEFFICIENTS) }) ∧
    (∀ (away home : TeamRow) (mf : MatchupFeatures) (c : Option HeuristicCoefficients),
      (predict_game away home mf c).adjustment_breakdown =
        (calculate_margin_enhanced home.adj_em away.adj_em mf c).2) ∧
    (calculate_margin_enhanced 0 0 clampedMatchup none).2.total ≠
      (calculate_margin_enhanced 0 0 clampedMatchup none).1 -
        calculate_margin_baseline 0 0 clampedMatchup.home_court_factor := by
  refine ⟨fun _ _ _ _ => rfl, fun away home mf c => (predict_game_margins away home mf c).2.2.1, ?_⟩
  rw [calculate_margin_enhanced_fst]
  have htot : (calculate_margin_enhanced 0 0 clampedMatchup none).2.total = 5 := by
    show adjust_for_pace clampedMatchup HEURISTIC_COEFFICIENTS +
        adjust_for_shooting clampedMatchup HEURISTIC_COEFFICIENTS +
        adjust_for_turnovers clampedMatchup HEURISTIC_COEFFICIENTS +
        adjust_for_rebounding clampedMatchup HEURISTIC_COEFFICIENTS = 5
    norm_num [adjust_for_pace, adjust_for_shooting, adjust_for_turnovers,
      adjust_for_rebounding, clampedMatchup, HEURISTIC_COEFFICIENTS]
  rw [htot]
  norm_num [max_adjustment_of, HEURISTIC_COEFFICIENTS, copysign]

/-- C1: for every pair of rows and every matchup-feature value, the enhanced
margin of predict_game stays within the configured cap of the baseline
margin (2.0 for the default coefficient map, any nonnegative configured
cap otherwise), and the baseline margin inside predict_game uses the same
matchup-features home-court factor that calculate_margin_enhanced uses. -/
theorem C1_margin_adjustment_capped :
    ∀ (away home : TeamRow) (mf : MatchupFeatures) (c : Option HeuristicCoefficients),
      (0 ≤ max_adjustment_of c →
        |(predict_game away home mf c).margin_enhanced -
            (predict_game away home mf c).margin_baseline| ≤ max_adjustment_of c) ∧
      |(predict_game away home mf none).margin_enhanced -
          (predict_game away home mf none).margin_baseline| ≤ 2.0 ∧
      (predict_game away home mf c).margin_baseline =
        calculate_margin_baseline home.adj_em away.adj_em mf.home_court_factor := by
  have key : ∀ (away home : TeamRow) (mf : MatchupFeatures)
      (c : Option HeuristicCoefficients), 0 ≤ max_adjustment_of c →
      |(predict_game away home mf c).margin_enhanced -
          (predict_game away home mf c).margin_baseline| ≤ max_adjustment_of c := by
    intro away home mf c hcap
    rw [(predict_game_margins away home mf c).1, (predict_game_margins away home mf c).2.1,
      calculate_margin_enhanced_fst]
    rw [add_sub_cancel_left]
    exact abs_capped_le _ _ hcap
  intro away home mf c
  refine ⟨key away home mf c, ?_, (predict_game_margins away home mf c).1⟩
  have h2 : max_adjustment_of none = 2.0 := rfl
  have := key away home mf none (by rw [h2]; norm_num)
  rwa [h2] at this

/-- Delta tempo of the computed matchup features, unfolded. -/
theorem calculate_matchup_features_delta_tempo (away home : TeamRow)
    (snap : Option HCASnapshot) :
    (calculate_matchup_features away home snap).delta_tempo =
      safe_get away.adj_tempo 68.0 - safe_get home.adj_tempo 68.0 := rfl

/-- Tempo mismatch of the computed matchup features is the absolute delta. -/
theorem calculate_matchup_features_tempo_mismatch (away home : TeamRow)
    (snap : Option HCASnapshot) :
    (calculate_matchup_features away home snap).tempo_mismatch =
      |(calculate_matchup_features away home snap).delta_tempo| := rfl

/-- Pace-control classification of the computed matchup features, unfolded. -/
theorem calculate_matchup_features_pace_control (away home : TeamRow)
    (snap : Option HCASnapshot) :
    (calculate_matchup_features away home snap).pace_control =
      (if |(calculate_matchup_features away home snap).delta_tempo| > 5.0 then
        if (calculate_matchup_features away home snap).delta_tempo > 0 then
          "away_controls"
        else "home_controls"
      else "neutral") := rfl

/-- Pace-control threshold logic over an arbitrary signed tempo delta. -/
theorem pace_class_spec (d : ℝ) :
    ((if |d| > 5.0 then if d > 0 then "away_controls" else "home_controls"
        else "neutral") = "neutral" ↔ |d| ≤ 5.0) ∧
    ((if |d| > 5.0 then if d > 0 then "away_controls" else "home_controls"
        else "neutral") = "away_controls" ↔ d > 5.0) ∧
    ((if |d| > 5.0 then if d > 0 then "away_controls" else "home_controls"
        else "neutral") = "home_controls" ↔ d < -5.0) := by
  by_cases h5 : |d| > 5.0
  · by_cases hpos : d > 0
    · have hd : d > 5.0 := by rwa [abs_of_pos hpos] at h5
      rw [if_pos h5, if_pos hpos]
      refine ⟨iff_of_false (by decide) (not_le.mpr h5), iff_of_true rfl hd,
        iff_of_false (by decide) (by linarith)⟩
    · have hd : d < -5.0 := by
        have := abs_of_nonpos (le_of_not_lt hpos)
        rw [this] at h5
        linarith
      rw [if_pos h5, if_neg hpos]
      refine ⟨iff_of_false (by decide) (not_le.mpr h5),
        iff_of_false (by decide) (by linarith), iff_of_true rfl hd⟩
  · have hle : |d| ≤ 5.0 := le_of_not_lt h5
    have h1 : d ≤ 5.0 := le_trans (le_abs_self d) hle
    have h2 : -5.0 ≤ d := neg_le_of_abs_le hle
    rw [if_neg h5]
    refine ⟨iff_of_true rfl hle, iff_of_false (by decide) (not_lt.mpr h1),
      iff_of_false (by decide) (not_lt.mpr h2)⟩

/-- Case equations of the pace adjustment in terms of the classification. -/
theorem adjust_for_pace_cases (mf : MatchupFeatures) (coef : HeuristicCoefficients) :
    (mf.pace_control = "home_controls" →
      adjust_for_pace mf coef = (|mf.delta_tempo| / 5.0) * coef.pace_control_per_5_tempo) ∧
    (mf.pace_control = "away_controls" →
      adjust_for_pace mf coef = -((|mf.delta_tempo| / 5.0) * coef.pace_control_per_5_tempo)) ∧
    (mf.pace_control = "neutral" → adjust_for_pace mf coef = 0) := by
  refine ⟨fun h => ?_, fun h => ?_, fun h => ?_⟩ <;>
    simp [adjust_for_pace, h] <;> norm_num

/-- C4: on every computed matchup-features value, the pace classification is
neutral exactly when the absolute tempo delta is at most 5.0, away-controls
exactly when the delta exceeds 5.0, home-controls exactly when it is below
−5.0; the pace adjustment is 0 when neutral and otherwise signed
(|delta_tempo| / 5.0) × 0.10, positive for home control; and a tempo
delta of −10.0 yields a +0.20 point pace adjustment. -/
theorem C4_pace_control_classification_and_adjustment :
    ∀ (away home : TeamRow) (snap : Option HCASnapshot),
      ((calculate_matchup_features away home snap).pace_control = "neutral" ↔
        |(calculate_matchup_features away home snap).delta_tempo| ≤ 5.0) ∧
      ((calculate_matchup_features away home snap).pace_control = "away_controls" ↔
        (calculate_matchup_features away home snap).delta_tempo > 5.0) ∧
      ((calculate_matchup_features away home snap).pace_control = "home_controls" ↔
        (calculate_matchup_features away home snap).delta_tempo < -5.0) ∧
      ((calculate_matchup_features away home snap).pace_control = "neutral" →
        adjust_for_pace (calculate_matchup_features away home snap)
          HEURISTIC_COEFFICIENTS = 0) ∧
      ((calculate_matchup_features away home snap).pace_control = "home_controls" →
        adjust_for_pace (calculate_matchup_features away home snap)
            HEURISTIC_COEFFICIENTS =
          (|(calculate_matchup_features away home snap).delta_tempo| / 5.0) * 0.10) ∧
      ((calculate_matchup_features away home snap).pace_control = "away_controls" →
        adjust_for_pace (calculate_matchup_features away home snap)
            HEURISTIC_COEFFICIENTS =
          -((|(calculate_matchup_features away home snap).delta_tempo| / 5.0) * 0.10)) ∧
      ((calculate_matchup_features away home snap).delta_tempo = -10.0 →
        adjust_for_pace (calculate_matchup_features away home snap)
          HEURISTIC_COEFFICIENTS = 0.20) := by
  intro away home snap
  have hpc := calculate_matchup_features_pace_control away home snap
  have hclass := pace_class_spec ((calculate_matchup_features away home snap).delta_tempo)
  have hadj := adjust_for_pace_cases (calculate_matchup_features away home snap)
    HEURISTIC_COEFFICIENTS
  have hco : HEURISTIC_COEFFICIENTS.pace_control_per_5_tempo = 0.10 := rfl
  refine ⟨by rw [hpc]; exact hclass.1, by rw [hpc]; exact hclass.2.1,
    by rw [hpc]; exact hclass.2.2, fun h => hadj.2.2 h,
    fun h => by rw [hadj.1 h, hco], fun h => by rw [hadj.2.1 h, hco], fun hdt => ?_⟩
  have hhome : (calculate_matchup_features away home snap).pace_control = "home_controls" := by
    rw [hpc]
    exact hclass.2.2.mpr (by rw [hdt]; norm_num)
  rw [hadj.1 hhome, hco, hdt]
  norm_num

/-- C5: calculate_sigma_game builds the interaction variance as
0.015 × tempo_mismatch² times the style multiplier (1.10 on a
3pt-versus-interior clash, else 1.0), takes the square root of the summed
variances, floors at the team sigmas; on the spec's concrete scenario the
interaction variance is 1.65 and the game sigma is √237.34. -/
theorem C5_variance_model_and_scenario :
    (∀ (a h : ℝ) (mf : MatchupFeatures),
      (calculate_sigma_game a h mf).2.var_interaction =
        0.015 * mf.tempo_mismatch ^ 2 *
          (if mf.style_clash = "3pt_vs_interior" then 1.10 else 1.0) ∧
      (calculate_sigma_game a h mf).2.var_total =
        a ^ 2 + h ^ 2 + (calculate_sigma_game a h mf).2.var_interaction ∧
      (calculate_sigma_game a h mf).1 =
        max (Real.sqrt ((calculate_sigma_game a h mf).2.var_total)) (max a h)) ∧
    (calculate_sigma_game 10.5 11.2 styleClashMatchup).2.var_interaction = 1.65 ∧
    (calculate_sigma_game 10.5 11.2 styleClashMatchup).1 = Real.sqrt 237.34 := by
  have hinter : ∀ (a h : ℝ) (mf : MatchupFeatures),
      (calculate_sigma_game a h mf).2.var_interaction =
        0.015 * mf.tempo_mismatch ^ 2 *
          (if mf.style_clash = "3pt_vs_interior" then 1.10 else 1.0) := by
    intro a h mf
    rw [calculate_sigma_game_snd]
    simp only [beq_iff_eq]
    rfl
  have hconc : (calculate_sigma_game 10.5 11.2 styleClashMatchup).2.var_interaction = 1.65 := by
    rw [hinter]
    norm_num [styleClashMatchup]
  have htot : (calculate_sigma_game 10.5 11.2 styleClashMatchup).2.var_total = 237.34 := by
    rw [calculate_sigma_game_snd]
    norm_num [styleClashMatchup, VARIANCE_COEFFICIENTS]
  refine ⟨fun a h mf => ⟨hinter a h mf, by rw [calculate_sigma_game_snd],
    calculate_sigma_game_fst a h mf⟩, hconc, ?_⟩
  rw [calculate_sigma_game_fst, htot]
  have hge : max (10.5:ℝ) 11.2 ≤ Real.sqrt 237.34 := by
    apply max_le
    · rw [show (10.5:ℝ) ≤ Real.sqrt 237.34 ↔ (10.5:ℝ) ^ 2 ≤ 237.34 from
        Real.le_sqrt (by norm_num) (by norm_num)]
      norm_num
    · rw [show (11.2:ℝ) ≤ Real.sqrt 237.34 ↔ (11.2:ℝ) ^ 2 ≤ 237.34 from
        Real.le_sqrt (by norm_num) (by norm_num)]
      norm_num
  exact max_eq_left hge

/-- C8: calculate_home_court_factor is total and returns the 3.5 default
when the home row has no team name or no table is available, the
team-specific value when get_team_hca matches, and the table's national
average otherwise; get_team_hca succeeds exactly when some table entry
matches case-insensitively, exactly or by bidirectional substring. -/
theorem C8_home_court_factor_cases :
    ∀ (home : TeamRow) (snap : Option HCASnapshot),
      (home.team = none → calculate_home_court_factor home snap = DEFAULT_HCA) ∧
      (snap = none → calculate_home_court_factor home snap = DEFAULT_HCA) ∧
      (∀ (n : String) (s : HCASnapshot) (h : ℝ), home.team = some n → snap = some s →
        s.get_team_hca n = some h → calculate_home_court_factor home snap = h) ∧
      (∀ (n : String) (s : HCASnapshot), home.team = some n → snap = some s →
        s.get_team_hca n = none →
        calculate_home_court_factor home snap = s.national_avg_hca) ∧
      (∀ (n : String) (s : HCASnapshot) (t : TeamHCA),
        s.teams.find? (fun u => str_lower u.team == str_lower n) = some t →
        s.get_team_hca n = some t.hca) ∧
      (∀ (n : String) (s : HCASnapshot),
        ((s.get_team_hca n).isSome = true ↔
          ∃ t ∈ s.teams, str_lower t.team = str_lower n ∨
            (pyIn (str_lower n) (str_lower t.team) ||
              pyIn (str_lower t.team) (str_lower n)) = true)) := by
  intro home snap
  refine ⟨fun h => by simp [calculate_home_court_factor, h],
    fun h => ?_, fun n s hv h1 h2 h3 => by simp [calculate_home_court_factor, h1, h2, h3],
    fun n s h1 h2 h3 => by simp [calculate_home_court_factor, h1, h2, h3],
    fun n s t hfind => by simp [HCASnapshot.get_team_hca, hfind],
    fun n s => ?_⟩
  · cases hteam : home.team <;> simp [calculate_home_court_factor, hteam, h]
  · simp only [HCASnapshot.get_team_hca]
    cases h1 : s.teams.find? (fun t => str_lower t.team == str_lower n) with
    | some t =>
      simp only [h1, Option.isSome_some, true_iff]
      exact ⟨t, List.mem_of_find?_eq_some h1, Or.inl (by simpa using List.find?_some h1)⟩
    | none =>
      cases h2 : s.teams.find?
          (fun t => pyIn (str_lower n) (str_lower t.team) ||
            pyIn (str_lower t.team) (str_lower n)) with
      | some t =>
        have hp := List.find?_some h2
        simp only [h1, h2, Option.isSome_some, true_iff]
        exact ⟨t, List.mem_of_find?_eq_some h2, Or.inr hp⟩
      | none =>
        simp only [h1, h2, Option.isSome_none, Bool.false_eq_true, false_iff]
        rintro ⟨t, ht, heq | hsub⟩
        · exact absurd (by simpa using heq)
            (by simpa using List.find?_eq_none.mp h1 t ht)
        · exact absurd hsub (by simpa using List.find?_eq_none.mp h2 t ht)

/-- Appending an identifier to the error text never yields the bare generic
message. -/
theorem team_not_found_ne_generic (x : String) :
    "Team not found: " ++ x ≠ "Team not found" := by
  intro h
  have hl := congrArg String.length h
  rw [String.length_append] at hl
  have h16 : ("Team not found: ").length = 16 := rfl
  have h14 : ("Team not found").length = 14 := rfl
  rw [h16, h14] at hl
  omega

/-- C10: the team-lookup failure of analyze_game names the original
identifier of the failing side — the away identifier when the away lookup
failed, the home identifier when only the home lookup failed — and the
error is never the bare generic message. -/
theorem C10_team_not_found_identifies_side :
    ∀ (away_team home_team : String) (away home : Option TeamRow),
      (away = none → analyze_game_error away_team home_team away home =
        some ("Team not found: " ++ away_team)) ∧
      (away ≠ none → home = none → analyze_game_error away_team home_team away home =
        some ("Team not found: " ++ home_team)) ∧
      (away ≠ none → home ≠ none →
        analyze_game_error away_team home_team away home = none) ∧
      (∀ msg : String, analyze_game_error away_team home_team away home = some msg →
        msg ≠ "Team not found") := by
  intro awayName homeName away home
  refine ⟨fun ha => by simp [analyze_game_error, ha], fun ha hh => ?_,
    fun ha hh => ?_, fun msg hmsg => ?_⟩
  · cases away with
    | none => exact absurd rfl ha
    | some a => simp [analyze_game_error, hh]
  · cases away with
    | none => exact absurd rfl ha
    | some a =>
      cases home with
      | none => exact absurd rfl hh
      | some b => simp [analyze_game_error]
  · cases away with
    | none =>
      simp only [analyze_game_error, Option.isNone_none, Bool.true_or, if_pos,
        Option.some_inj] at hmsg
      rw [← hmsg]
      exact team_not_found_ne_generic _
    | some a =>
      cases home with
      | none =>
        simp only [analyze_game_error, Option.isNone_none, Option.isNone_some,
          Bool.or_true, Bool.false_or, if_pos, Option.some_inj] at hmsg
        rw [← hmsg]
        simp only [Bool.false_eq_true, if_false]
        exact team_not_found_ne_generic _
      | some b => simp [analyze_game_error] at hmsg

/-- Home-court factor of the computed matchup features, unfolded. -/
theorem calculate_matchup_features_home_court_factor (away home : TeamRow)
    (snap : Option HCASnapshot) :
    (calculate_matchup_features away home snap).home_court_factor =
      calculate_home_court_factor home snap := rfl

/-- C9: the two-run determinism claim fails on the code — demonstration at
the disk state where the newest HCA file parses but its filename date makes
the freshness check raise, so load_hca_snapshot returns None with the cache
already set.  The first predict_game call with omitted features then uses
the 3.5 default home-court factor while the identical second call reads the
poisoned cache and uses the team-specific 4.5 table value, so the two calls
return different MarginPredictions. -/
theorem C9_first_run_cache_poisoning :
    (predict_gameW exampleAwayRow exampleHomeRow none none
        { cache := none,
          disk := DiskState.freshnessFailure poisonSnapshot }).1.margin_baseline = 3.5 ∧
    (predict_gameW exampleAwayRow exampleHomeRow none none
        (predict_gameW exampleAwayRow exampleHomeRow none none
          { cache := none,
            disk := DiskState.freshnessFailure poisonSnapshot }).2).1.margin_baseline = 4.5 ∧
    (predict_gameW exampleAwayRow exampleHomeRow none none
        (predict_gameW exampleAwayRow exampleHomeRow none none
          { cache := none,
            disk := DiskState.freshnessFailure poisonSnapshot }).2).1 ≠
      (predict_gameW exampleAwayRow exampleHomeRow none none
        { cache := none, disk := DiskState.freshnessFailure poisonSnapshot }).1 := by
  have hrun1 : (predict_gameW exampleAwayRow exampleHomeRow none none
      { cache := none, disk := DiskState.freshnessFailure poisonSnapshot }).1 =
      predict_game exampleAwayRow exampleHomeRow
        (calculate_matchup_features exampleAwayRow exampleHomeRow none) none := rfl
  have hw2 : (predict_gameW exampleAwayRow exampleHomeRow none none
      { cache := none, disk := DiskState.freshnessFailure poisonSnapshot }).2 =
      { cache := some poisonSnapshot,
        disk := DiskState.freshnessFailure poisonSnapshot } := rfl
  have hrun2 : (predict_gameW exampleAwayRow exampleHomeRow none none
      (predict_gameW exampleAwayRow exampleHomeRow none none
        { cache := none, disk := DiskState.freshnessFailure poisonSnapshot }).2).1 =
      predict_game exampleAwayRow exampleHomeRow
        (calculate_matchup_features exampleAwayRow exampleHomeRow
          (some poisonSnapshot)) none := by
    rw [hw2]
    rfl
  have hcf1 : calculate_home_court_factor exampleHomeRow none = 3.5 := rfl
  have hcf2 : calculate_home_court_factor exampleHomeRow (some poisonSnapshot) = 4.5 := rfl
  have hm1 : (predict_gameW exampleAwayRow exampleHomeRow none none
      { cache := none,
        disk := DiskState.freshnessFailure poisonSnapshot }).1.margin_baseline = 3.5 := by
    rw [hrun1, (predict_game_margins exampleAwayRow exampleHomeRow
      (calculate_matchup_features exampleAwayRow exampleHomeRow none) none).1,
      calculate_matchup_features_home_court_factor, hcf1]
    norm_num [calculate_margin_baseline, exampleAwayRow, exampleHomeRow]
  have hm2 : (predict_gameW exampleAwayRow exampleHomeRow none none
      (predict_gameW exampleAwayRow exampleHomeRow none none
        { cache := none,
          disk := DiskState.freshnessFailure poisonSnapshot }).2).1.margin_baseline = 4.5 := by
    rw [hrun2, (predict_game_margins exampleAwayRow exampleHomeRow
      (calculate_matchup_features exampleAwayRow exampleHomeRow (some poisonSnapshot)) none).1,
      calculate_matchup_features_home_court_factor, hcf2]
    norm_num [calculate_margin_baseline, exampleAwayRow, exampleHomeRow]
  refine ⟨hm1, hm2, fun h => ?_⟩
  have hmb := congrArg MarginPrediction.margin_baseline h
  rw [hm1, hm2] at hmb
  norm_num at hmb

/-- Oddness of the error function: the defining integral flips sign with its
upper bound because the Gaussian integrand is even. -/
theorem erf_neg (x : ℝ) : erf (-x) = -erf x := by
  unfold erf
  have h1 := intervalIntegral.integral_comp_neg (a := 0) (b := x)
    (fun t => Real.exp (-(t ^ 2)))
  simp only [neg_sq, neg_zero] at h1
  have h2 : (∫ t in (0:ℝ)..(-x), Real.exp (-(t ^ 2))) =
      -∫ t in (0:ℝ)..x, Real.exp (-(t ^ 2)) := by
    rw [intervalIntegral.integral_symm (-x) 0, ← h1]
  rw [h2]
  ring

/-- Reflection identity of the embedded normal CDF. -/
theorem normal_cdf_neg (x : ℝ) : normal_cdf (-x) = 1 - normal_cdf x := by
  unfold normal_cdf
  rw [neg_div, erf_neg]
  ring

/-- C3: in every projection the visitor win probability is exactly one minus
the home win probability (it is derived by subtraction), so the two sum to
exactly 1.0; and within one predict_game call the baseline win probability
taken from the away perspective is exactly the complement of the home
baseline win probability. -/
theorem C3_win_probability_complement :
    (∀ (home visitor : RatingLike) (ha k : ℝ) (fs : Option String),
      (project_scores home visitor ha k fs).win_prob_visitor =
          1.0 - (project_scores home visitor ha k fs).win_prob_home ∧
        (project_scores home visitor ha k fs).win_prob_home +
          (project_scores home visitor ha k fs).win_prob_visitor = 1.0) ∧
    (∀ (home visitor : RatingLike) (ha k : ℝ) (fs : Option String)
        (pt : Option ℝ) (alr : Bool),
      (project_scores_loglinear home visitor ha k fs pt alr).win_prob_visitor =
          1.0 - (project_scores_loglinear home visitor ha k fs pt alr).win_prob_home ∧
        (project_scores_loglinear home visitor ha k fs pt alr).win_prob_home +
          (project_scores_loglinear home visitor ha k fs pt alr).win_prob_visitor = 1.0) ∧
    (∀ (away home : TeamRow) (mf : MatchupFeatures) (c : Option HeuristicCoefficients),
      normal_cdf (-(predict_game away home mf c).margin_baseline /
          (predict_game away home mf c).sigma_baseline) =
        1.0 - (predict_game away home mf c).win_prob_baseline) := by
  refine ⟨fun home visitor ha k fs => ?_, fun home visitor ha k fs pt alr => ?_,
    fun away home mf c => ?_⟩
  · have h : (project_scores home visitor ha k fs).win_prob_visitor =
        1.0 - (project_scores home visitor ha k fs).win_prob_home := rfl
    refine ⟨h, ?_⟩
    rw [h]
    ring
  · have h : (project_scores_loglinear home visitor ha k fs pt alr).win_prob_visitor =
        1.0 - (project_scores_loglinear home visitor ha k fs pt alr).win_prob_home := rfl
    refine ⟨h, ?_⟩
    rw [h]
    ring
  have hw : (predict_game away home mf c).win_prob_baseline =
      normal_cdf ((predict_game away home mf c).margin_baseline /
        (predict_game away home mf c).sigma_baseline) := rfl
  rw [hw, neg_div, normal_cdf_neg]
  norm_num
